import Mathlib

set_option maxRecDepth 8000

namespace EmotionalSage

/-! Shallow embedding of the EmotionalSage core: the emotion analyzer
(`emotion_analyzer.py`), the two content recommenders
(`movie_recommender.py`, `youtube_recommender.py`) and the recommendation
engine (`recommendation_engine.py`).  Python floats are modelled as
rationals, provider HTTP calls as function parameters, and Python
exceptions raised by a provider as `Except Unit` results. -/

/-- ASCII fragment of the Python regex class `\s` (the whitespace characters
stripped by `str.strip` as well). -/
def pyIsSpace (c : Char) : Bool :=
  c == ' ' || c == '\t' || c == '\n' || c == '\r' || c == '\x0b' || c == '\x0c'

/-- ASCII fragment of the Python regex class `\w`. -/
def isWordChar (c : Char) : Bool :=
  c.isAlphanum || c == '_'

/-- Characters kept by `_clean_text`: word characters, whitespace and basic
punctuation (the regex `[^\w\s.,!?-]` is deleted). -/
def keepChar (c : Char) : Bool :=
  isWordChar c || pyIsSpace c || c == '.' || c == ',' || c == '!' || c == '?' || c == '-'

/-- The whitespace-collapsing substitution of `_clean_text`: each run of
whitespace becomes one space.
The flag records whether the previous character was whitespace. -/
def collapseWSAux : Bool → List Char → List Char
  | _, [] => []
  | prevSpace, c :: cs =>
    if pyIsSpace c then
      if prevSpace then collapseWSAux true cs else ' ' :: collapseWSAux true cs
    else c :: collapseWSAux false cs

def collapseWS (l : List Char) : List Char :=
  collapseWSAux false l

/-- Python `str.strip()` on a character list. -/
def stripChars (l : List Char) : List Char :=
  ((l.dropWhile pyIsSpace).reverse.dropWhile pyIsSpace).reverse

/-- Python `str.strip()` on a string. -/
def pyStrip (s : String) : String :=
  ⟨stripChars s.data⟩

namespace EmotionAnalyzer

/-- `_clean_text`: lowercase, collapse whitespace runs, delete characters
outside `[\w\s.,!?-]`, strip. -/
def clean_text (l : List Char) : List Char :=
  stripChars ((collapseWS (l.map Char.toLower)).filter keepChar)

/-- True when the first character of `rest` (if any) is not a word character:
the `\b` boundary after a keyword that ends in a word character. -/
def boundaryAfter (rest : List Char) : Bool :=
  match rest with
  | [] => true
  | c :: _ => !isWordChar c

/-- Number of whole-word regex matches (`findall` with word boundaries
around the escaped keyword) for a keyword whose
first and last characters are word characters (true of every keyword in the
keyword lists of the analyzer).  `prevW` records whether the previous character of the
text is a word character; matches are non-overlapping and scanning resumes
right after each match exactly as `findall` does, which the `skip` counter
implements (it counts the characters of the current match still to pass
over, during which no new match may start). -/
def countFrom (pat : List Char) : List Char → Bool → Nat → Nat
  | [], _, _ => 0
  | c :: rest, _, Nat.succ skip => countFrom pat rest (isWordChar c) skip
  | c :: rest, prevW, 0 =>
    if !pat.isEmpty && !prevW && pat.isPrefixOf (c :: rest)
        && boundaryAfter ((c :: rest).drop pat.length) then
      1 + countFrom pat rest (isWordChar c) (pat.length - 1)
    else
      countFrom pat rest (isWordChar c) 0

def countWholeWord (pat : List Char) (text : List Char) : Nat :=
  countFrom pat text false 0

/-- `self.emotion_keywords`, in declaration order. -/
def emotion_keywords : List (String × List String) := [
  ("joy", ["happy", "excited", "thrilled", "joyful", "elated", "cheerful",
           "delighted", "euphoric", "upbeat", "optimistic"]),
  ("sadness", ["sad", "depressed", "down", "melancholy", "grief", "sorrow",
               "heartbroken", "dejected", "gloomy", "blue"]),
  ("anger", ["angry", "furious", "irritated", "mad", "rage", "frustrated",
             "annoyed", "outraged", "livid", "hostile"]),
  ("fear", ["scared", "afraid", "terrified", "anxious", "worried", "nervous",
            "panic", "frightened", "apprehensive", "uneasy"]),
  ("surprise", ["surprised", "shocked", "amazed", "astonished", "stunned",
                "bewildered", "startled", "astounded"]),
  ("disgust", ["disgusted", "revolted", "repulsed", "sickened", "nauseated",
               "appalled", "horrified"]),
  ("love", ["love", "adore", "cherish", "romantic", "affectionate", "tender",
            "passionate", "devoted", "infatuated"]),
  ("anticipation", ["excited", "eager", "looking forward", "anticipating",
                    "hopeful", "expectant", "enthusiastic"]),
  ("calm", ["calm", "peaceful", "relaxed", "serene", "tranquil", "content",
            "balanced", "centered", "zen"]),
  ("stress", ["stressed", "overwhelmed", "pressure", "burden", "exhausted",
              "burned out", "tense", "strained"])]

/-- The ten fixed emotion labels, in declaration order. -/
def emotionLabels : List String :=
  ["joy", "sadness", "anger", "fear", "surprise", "disgust", "love",
   "anticipation", "calm", "stress"]

/-- Summed keyword count for the keyword list of one emotion. -/
def keywordScore (text : List Char) (kws : List String) : Nat :=
  (kws.map (fun kw => countWholeWord kw.data text)).sum

/-- `_detect_keyword_emotions`: sparse mapping emotion -> count, in the
declaration order of `emotion_keywords` (Python dicts iterate in insertion
order); only emotions with a positive score are present. -/
def detect_keyword_emotions (text : List Char) : List (String × Nat) :=
  emotion_keywords.filterMap (fun p =>
    let s := keywordScore text p.2
    if 0 < s then some (p.1, s) else none)

/-- One comparison step of Python `max(..., key=lambda x: x[1])`: the running
maximum is replaced only on a strictly greater value, so the first maximal
item wins. -/
def maxStep (acc q : String × Nat) : String × Nat :=
  if acc.2 < q.2 then q else acc

/-- `max(keyword_emotions.items(), key=lambda x: x[1])`: Python `max` keeps
the first item among those with the maximal value. -/
def maxByValue (l : List (String × Nat)) : Option (String × Nat) :=
  match l with
  | [] => none
  | p :: ps => some (ps.foldl maxStep p)

/-- Python `emotion in keyword_emotions` (dict key membership). -/
def containsKey (ke : List (String × Nat)) (e : String) : Bool :=
  ke.any (fun p => p.1 == e)

/-- Python `keyword_emotions[x]` (keys looked up are always present). -/
def keCount (ke : List (String × Nat)) (e : String) : Nat :=
  (ke.lookup e).getD 0

/-- VADER polarity scores. -/
structure VaderScores where
  compound : ℚ
  pos : ℚ
  neg : ℚ
  neu : ℚ
deriving DecidableEq

def positiveEmotions : List String := ["joy", "love", "anticipation", "surprise"]

def negativeEmotions : List String := ["sadness", "anger", "fear", "disgust"]

/-- The `for emotion in ...: if emotion in keyword_emotions: return emotion`
loops in `_determine_primary_emotion`. -/
def findFirstKey (cands : List String) (ke : List (String × Nat)) : Option String :=
  cands.find? (fun e => containsKey ke e)

/-- The fall-through of the strong-negative branch when no negative
lexical emotion is present: neg-proportion and polarity decide between
sadness and anger. -/
def negDefault (vs : VaderScores) (textblob_polarity : ℚ) : String :=
  if 3/10 < vs.neg then
    if textblob_polarity < -(3/10) then "sadness" else "anger"
  else "sadness"

/-- The sentiment-based part of `_determine_primary_emotion` (everything
after the early `return` of the strong-keyword rule), including the
unreachable stress/calm membership checks of the neutral branch. -/
def determine_primary_rest (vs : VaderScores) (textblob_polarity : ℚ)
    (ke : List (String × Nat)) : String :=
  if 1/2 ≤ vs.compound then
      if !ke.isEmpty then
        match findFirstKey positiveEmotions ke with
        | some e => e
        | none => "joy"
      else "joy"
    else if vs.compound ≤ -(1/2) then
      if !ke.isEmpty then
        match findFirstKey negativeEmotions ke with
        | some e => e
        | none => negDefault vs textblob_polarity
      else negDefault vs textblob_polarity
    else
      if !ke.isEmpty then
        match maxByValue ke with
        | some m => m.1
        | none => "calm"
      else if containsKey ke "stress"
          || ke.any (fun p => p.1 == "stress" || p.1 == "overwhelm" || p.1 == "pressure") then
        "stress"
      else if ke.any (fun p => p.1 == "calm" || p.1 == "peace" || p.1 == "relax") then
        "calm"
      else "calm"

/-- `_determine_primary_emotion`: the strong-keyword rule returns early,
otherwise the sentiment cascade of `determine_primary_rest` decides. -/
def determine_primary_emotion (vs : VaderScores) (textblob_polarity : ℚ)
    (ke : List (String × Nat)) : String :=
  match maxByValue ke with
  | some m =>
    if 2 ≤ m.2 then m.1 else determine_primary_rest vs textblob_polarity ke
  | none => determine_primary_rest vs textblob_polarity ke

/-- `max(keyword_emotions.values())` (only used when the mapping is
non-empty, where the fold with 0 agrees with Python `max`). -/
def maxVal (ke : List (String × Nat)) : Nat :=
  (ke.map (fun p => p.2)).foldl Nat.max 0

/-- `_calculate_confidence`. -/
def calculate_confidence (vs : VaderScores) (textblob_subjectivity : ℚ)
    (ke : List (String × Nat)) : ℚ :=
  let factors : List ℚ :=
    [min (|vs.compound| * 2) 1,
     textblob_subjectivity,
     if !ke.isEmpty then min ((maxVal ke : ℚ) / 5) 1 else 3/10]
  max (factors.sum / (factors.length : ℚ)) (2/5)

/-- Stable insertion for a descending sort by `key` (Python `sorted` with
`reverse=True` keeps the original order of equal keys). -/
def insertDescBy (key : String → Nat) (x : String) : List String → List String
  | [] => [x]
  | y :: ys => if key y ≤ key x then x :: y :: ys else y :: insertDescBy key x ys

def sortDescBy (key : String → Nat) : List String → List String
  | [] => []
  | x :: xs => insertDescBy key x (sortDescBy key xs)

/-- `_get_secondary_emotions`. -/
def get_secondary_emotions (ke : List (String × Nat)) (primary : String) :
    List String :=
  let secondary := (ke.filter (fun p => p.1 != primary && decide (0 < p.2))).map
    (fun p => p.1)
  (sortDescBy (fun e => keCount ke e) secondary).take 2

/-- The dictionary returned by `analyze_emotion`. -/
structure EmotionResult where
  primary_emotion : String
  confidence : ℚ
  secondary_emotions : List String
  compound : ℚ
  positive : ℚ
  negative : ℚ
  neutral : ℚ
  textblob_polarity : ℚ
  textblob_subjectivity : ℚ
deriving DecidableEq

/-- The result record built by `analyze_emotion` on the non-empty path. -/
def analyze_result (vader : List Char → VaderScores)
    (blob : List Char → ℚ × ℚ) (text : String) : EmotionResult :=
  let ct := clean_text text.data
  let vs := vader ct
  let pol := (blob ct).1
  let subj := (blob ct).2
  let ke := detect_keyword_emotions ct
  let primary := determine_primary_emotion vs pol ke
  { primary_emotion := primary
    confidence := calculate_confidence vs subj ke
    secondary_emotions := get_secondary_emotions ke primary
    compound := vs.compound
    positive := vs.pos
    negative := vs.neg
    neutral := vs.neu
    textblob_polarity := pol
    textblob_subjectivity := subj }

/-- `analyze_emotion`, parameterized by the external VADER and TextBlob
sentiment estimators (pure functions of the cleaned text; TextBlob yields
(polarity, subjectivity)).  `not text or not text.strip()` is equivalent to
comparing the stripped text with the empty string. -/
def analyze_emotion (vader : List Char → VaderScores)
    (blob : List Char → ℚ × ℚ) (text : String) : Option EmotionResult :=
  if pyStrip text = "" then none
  else some (analyze_result vader blob text)

end EmotionAnalyzer

/-- A movie record; only the fields the core logic inspects (`id` for dedup,
`rating` for the keyword-search filter) are modelled, the rest of the TMDB
presentation payload is opaque. -/
structure Movie where
  id : Int
  rating : ℚ
deriving DecidableEq

/-- A YouTube video record, keyed by its provider id. -/
structure Video where
  id : String
deriving DecidableEq

/-- The shared dedup-and-limit loop of both recommenders:
`for item in items: if id not in seen: seen.add; unique.append;`
`if len(unique) >= limit: break`.  `limit` is the remaining capacity, so the
Python break test `len(unique) >= limit` becomes `limit <= 1` right after an
append. -/
def dedupLimit {α β : Type} [DecidableEq β] (key : α → β) :
    Nat → List β → List α → List α
  | _, _, [] => []
  | limit, seen, m :: ms =>
    if key m ∈ seen then dedupLimit key limit seen ms
    else if limit ≤ 1 then [m]
    else m :: dedupLimit key (limit - 1) (key m :: seen) ms

/-- The shared accumulation loop of both recommenders:
`for q in qs: acc.extend(fetch(q)); if len(acc) >= limit: break`. -/
def tierCollect {β α : Type} (fetch : β → List α) (limit : Nat) :
    List β → List α → List α
  | [], acc => acc
  | q :: qs, acc =>
    let acc2 := acc ++ fetch q
    if limit ≤ acc2.length then acc2 else tierCollect fetch limit qs acc2

/-- Python `str.lower()` (ASCII fragment). -/
def lowerStr (s : String) : String :=
  ⟨s.data.map Char.toLower⟩

namespace MovieRecommender

/-- `self.emotion_genre_map`. -/
def emotion_genre_map : List (String × List Int) := [
  ("joy", [35, 10402, 10751, 16]),
  ("sadness", [18, 10749]),
  ("anger", [28, 53, 80]),
  ("fear", [27, 53, 9648]),
  ("surprise", [878, 14, 12]),
  ("disgust", [27, 53]),
  ("love", [10749, 18, 35]),
  ("anticipation", [12, 878, 28]),
  ("calm", [99, 18, 10402]),
  ("stress", [35, 10751, 16])]

/-- The curated list for joy, which is also the `dict.get` default. -/
def joyCurated : List Movie :=
  [⟨1, 81/10⟩, ⟨2, 8⟩, ⟨3, 8⟩]

/-- The static `curated_movies` table (ids and ratings). -/
def curated_movies : List (String × List Movie) := [
  ("joy", joyCurated),
  ("sadness", [⟨4, 81/10⟩, ⟨5, 8⟩, ⟨6, 78/10⟩]),
  ("anger", [⟨7, 81/10⟩, ⟨8, 74/10⟩, ⟨9, 76/10⟩]),
  ("fear", [⟨10, 75/10⟩, ⟨11, 77/10⟩, ⟨12, 73/10⟩]),
  ("love", [⟨13, 8⟩, ⟨14, 81/10⟩, ⟨15, 83/10⟩]),
  ("calm", [⟨16, 82/10⟩, ⟨17, 77/10⟩, ⟨18, 68/10⟩]),
  ("stress", [⟨19, 93/10⟩, ⟨20, 79/10⟩, ⟨21, 81/10⟩])]

/-- `_get_curated_recommendations`:
look up the lowercased emotion in the curated table, default to the joy
list, truncate to `limit`. -/
def get_curated_recommendations (emotion : String) (limit : Nat) : List Movie :=
  ((curated_movies.lookup (lowerStr emotion)).getD joyCurated).take limit

/-- `MovieRecommender.get_recommendations`.  `hasKey` is whether
`TMDB_API_KEY` is set and non-empty; `fetchGenre` abstracts
`_get_movies_by_genre` (genre id and per-call limit to the already
formatted result list; any HTTP/format error already yields `[]` there). -/
def get_recommendations (hasKey : Bool) (fetchGenre : Int → Nat → List Movie)
    (emotion : String) (limit : Nat) : List Movie :=
  if !hasKey then get_curated_recommendations emotion limit
  else
    let genreIds := (emotion_genre_map.lookup (lowerStr emotion)).getD [35]
    let movies := tierCollect (fun g => fetchGenre g 3) limit (genreIds.take 2) []
    dedupLimit (fun m => m.id) limit [] movies

/-- `search_movies_by_keyword`: truncate the provider response to `limit`,
then keep the movies with rating >= 6.0.  No dedup by id. -/
def search_movies_by_keyword (hasKey : Bool) (fetchSearch : String → List Movie)
    (keyword : String) (limit : Nat) : List Movie :=
  if !hasKey then []
  else ((fetchSearch keyword).take limit).filter (fun m => decide (6 ≤ m.rating))

end MovieRecommender

namespace YouTubeRecommender

/-- `self.emotion_queries`. -/
def emotion_queries : List (String × List String) := [
  ("joy", ["feel good music", "happy songs", "uplifting videos",
           "comedy sketches", "funny moments"]),
  ("sadness", ["sad songs", "emotional music", "comfort videos",
               "healing music", "therapeutic content"]),
  ("anger", ["rock music", "intense workouts", "motivational speeches",
             "rage room", "metal music"]),
  ("fear", ["relaxing music", "meditation", "calming sounds",
            "anxiety relief", "peaceful nature"]),
  ("surprise", ["amazing facts", "mind blowing", "incredible moments",
                "wow videos", "surprising discoveries"]),
  ("disgust", ["satisfying videos", "cleaning videos", "organizing",
               "fresh content", "renewal videos"]),
  ("love", ["romantic songs", "love songs", "relationship advice",
            "heartwarming stories", "couples content"]),
  ("anticipation", ["upcoming releases", "exciting news", "adventure videos",
                    "travel vlogs", "new discoveries"]),
  ("calm", ["meditation music", "nature sounds", "peaceful videos",
            "relaxing content", "zen music"]),
  ("stress", ["stress relief", "relaxation techniques", "comedy videos",
              "funny animals", "meditation"])]

/-- `YouTubeRecommender.get_recommendations`.  `hasKey` is whether
`YOUTUBE_API_KEY` is set and non-empty; `searchVideos` abstracts
`_search_videos` (query and per-call limit to the formatted result list). -/
def get_recommendations (hasKey : Bool) (searchVideos : String → Nat → List Video)
    (emotion : String) (limit : Nat) : List Video :=
  if !hasKey then []
  else
    let queries := (emotion_queries.lookup (lowerStr emotion)).getD ["relaxing music"]
    let videos := tierCollect (fun q => searchVideos q 3) limit (queries.take 3) []
    dedupLimit (fun v => v.id) limit [] videos

/-- `get_trending_videos`: every formatted item of the provider response is
returned; no dedup and no local truncation (`maxResults` is only a request
parameter, abstracted into `trendingFetch`). -/
def get_trending_videos (hasKey : Bool) (trendingFetch : Nat → List Video)
    (limit : Nat) : List Video :=
  if !hasKey then [] else trendingFetch limit

end YouTubeRecommender

namespace RecommendationEngine

/-- The recommendation bundle; the `reasoning` string is not modelled since
no verified property mentions it and the code never branches on it. -/
structure Bundle where
  movies : List Movie
  videos : List Video
deriving DecidableEq

/-- The secondary-emotion fallback loop of `get_recommendations`: iterate
the secondary emotions, stop at the first non-empty result; an exception
escapes the loop. -/
def secondaryLoop {α : Type} (fetch : String → Nat → Except Unit (List α))
    (limit : Nat) : List String → Except Unit (List α)
  | [] => .ok []
  | e :: rest =>
    match fetch e limit with
    | .error u => .error u
    | .ok items => if items.isEmpty then secondaryLoop fetch limit rest else .ok items

/-- The primary-plus-secondary block of one content type, wrapped in its
`try/except`: any exception leaves the list empty (nothing was assigned to
a non-empty value before the raise). -/
def tierFetch {α : Type} (fetch : String → Nat → Except Unit (List α))
    (primary : String) (secs : List String) (primLimit secLimit : Nat) : List α :=
  match ((match fetch primary primLimit with
    | .error u => .error u
    | .ok items =>
      if items.isEmpty then secondaryLoop fetch secLimit secs else .ok items :
      Except Unit (List α))) with
  | .ok items => items
  | .error _ => []

/-- `fallback_keywords` in `_get_fallback_recommendations`. -/
def fallback_keywords : List (String × String) := [
  ("joy", "comedy"), ("sadness", "drama"), ("anger", "action"),
  ("fear", "meditation"), ("surprise", "amazing"), ("disgust", "satisfying"),
  ("love", "romance"), ("anticipation", "adventure"), ("calm", "relaxing"),
  ("stress", "funny")]

/-- `_get_fallback_recommendations`: keyword movie search (limit 3) and
trending videos (limit 5); each call has its own `try/except` that drops an
exception to `[]`. -/
def get_fallback_recommendations
    (movieSearch : String → Nat → Except Unit (List Movie))
    (ytTrending : Nat → Except Unit (List Video))
    (emotion : String) : List Movie × List Video :=
  let keyword := (fallback_keywords.lookup emotion).getD "entertainment"
  let ms := match movieSearch keyword 3 with | .ok l => l | .error _ => []
  let vs := match ytTrending 5 with | .ok l => l | .error _ => []
  (ms, vs)

/-- `RecommendationEngine.get_recommendations`, parameterized by the four
provider entry points it calls.  Movie tier: primary limit 6, secondary
limit 3; video tier: primary limit 8, secondary limit 4; if both lists are
still empty the global fallback replaces the bundle; the bundle is returned
iff at least one list is non-empty, else `none`. -/
def get_recommendations
    (movieRec : String → Nat → Except Unit (List Movie))
    (ytRec : String → Nat → Except Unit (List Video))
    (movieSearch : String → Nat → Except Unit (List Movie))
    (ytTrending : Nat → Except Unit (List Video))
    (primary : String) (secs : List String) : Option Bundle :=
  let movies := tierFetch movieRec primary secs 6 3
  let videos := tierFetch ytRec primary secs 8 4
  let pair :=
    if movies.isEmpty && videos.isEmpty then
      get_fallback_recommendations movieSearch ytTrending primary
    else (movies, videos)
  if pair.1.isEmpty && pair.2.isEmpty then none else some ⟨pair.1, pair.2⟩

end RecommendationEngine

/-- A VADER stub returning all-zero scores, used to instantiate theorems at
concrete inputs. -/
def vader0 : List Char → EmotionAnalyzer.VaderScores :=
  fun _ => ⟨0, 0, 0, 0⟩

/-- A TextBlob stub returning zero polarity and subjectivity. -/
def blob0 : List Char → ℚ × ℚ :=
  fun _ => (0, 0)

/-- Three distinct videos, used to instantiate the engine at a concrete
provider. -/
def vids3 : List Video :=
  [⟨"a"⟩, ⟨"b"⟩, ⟨"c"⟩]

/-- A keyword-search provider stub whose response repeats one id. -/
def dupSearch : String → List Movie :=
  fun _ => [⟨1, 8⟩, ⟨1, 8⟩]

/-- The analyzer result for "happy excited sad depressed" under the zero
sentiment stubs (joy and sadness tie at count 2, anticipation has 1). -/
def resTie : EmotionAnalyzer.EmotionResult :=
  ⟨"joy", 2/5, ["sadness", "anticipation"], 0, 0, 0, 0, 0, 0⟩

/-- The analyzer result for the strong-joy scenario text under the zero
sentiment stubs. -/
def resBestDay : EmotionAnalyzer.EmotionResult :=
  ⟨"joy", 2/5, ["anticipation"], 0, 0, 0, 0, 0, 0⟩

/-- The analyzer result for the keyword-free text "x" under the zero
sentiment stubs. -/
def resX : EmotionAnalyzer.EmotionResult :=
  ⟨"calm", 2/5, [], 0, 0, 0, 0, 0, 0⟩

/-! ## Lemmas about the lexical scan and Python `max` -/

namespace EmotionAnalyzer

theorem foldl_maxStep_spec (ps : List (String × Nat)) (a : String × Nat) :
    (ps.foldl maxStep a = a ∧ ∀ q ∈ ps, q.2 ≤ a.2) ∨
    (a.2 < (ps.foldl maxStep a).2 ∧
      ∃ l₁ l₂, ps = l₁ ++ (ps.foldl maxStep a) :: l₂ ∧
        (∀ q ∈ l₁, q.2 < (ps.foldl maxStep a).2) ∧
        (∀ q ∈ l₂, q.2 ≤ (ps.foldl maxStep a).2)) := by
  induction ps generalizing a with
  | nil => exact Or.inl ⟨rfl, by simp⟩
  | cons q qs ih =>
    by_cases h : a.2 < q.2
    · have hstep : maxStep a q = q := by simp [maxStep, h]
      have hfold : (q :: qs).foldl maxStep a = qs.foldl maxStep q := by
        simp [List.foldl_cons, hstep]
      rcases ih q with ⟨heq, hall⟩ | ⟨hlt, l₁, l₂, hdec, h₁, h₂⟩
      · refine Or.inr ⟨?_, [], qs, ?_, by simp, ?_⟩
        · rw [hfold, heq]; exact h
        · rw [hfold, heq]; simp
        · rw [hfold, heq]; exact hall
      · refine Or.inr ⟨?_, q :: l₁, l₂, ?_, ?_, ?_⟩
        · rw [hfold]; exact lt_trans h hlt
        · rw [hfold]; simpa using congrArg (q :: ·) hdec
        · intro p hp
          rcases List.mem_cons.1 hp with rfl | hp
          · rw [hfold]; exact hlt
          · rw [hfold]; exact h₁ p hp
        · intro p hp; rw [hfold]; exact h₂ p hp
    · have hstep : maxStep a q = a := by simp [maxStep, h]
      have hfold : (q :: qs).foldl maxStep a = qs.foldl maxStep a := by
        simp [List.foldl_cons, hstep]
      rcases ih a with ⟨heq, hall⟩ | ⟨hlt, l₁, l₂, hdec, h₁, h₂⟩
      · refine Or.inl ⟨by rw [hfold, heq], ?_⟩
        intro p hp
        rcases List.mem_cons.1 hp with rfl | hp
        · exact le_of_not_lt h
        · exact hall p hp
      · refine Or.inr ⟨by rw [hfold]; exact hlt, q :: l₁, l₂, ?_, ?_, ?_⟩
        · rw [hfold]; simpa using congrArg (q :: ·) hdec
        · intro p hp
          rcases List.mem_cons.1 hp with rfl | hp
          · rw [hfold]; exact lt_of_le_of_lt (le_of_not_lt h) hlt
          · rw [hfold]; exact h₁ p hp
        · intro p hp; rw [hfold]; exact h₂ p hp

/-- `maxByValue` returns the first list element attaining the maximal
count: everything before it is strictly smaller, everything after is no
larger. -/
theorem maxByValue_first_max {l : List (String × Nat)} {m : String × Nat}
    (h : maxByValue l = some m) :
    ∃ l₁ l₂, l = l₁ ++ m :: l₂ ∧ (∀ q ∈ l₁, q.2 < m.2) ∧ (∀ q ∈ l₂, q.2 ≤ m.2) := by
  match l, h with
  | p :: ps, h =>
    have hm : ps.foldl maxStep p = m := by
      simpa [maxByValue] using h
    rcases foldl_maxStep_spec ps p with ⟨heq, hall⟩ | ⟨hlt, l₁, l₂, hdec, h₁, h₂⟩
    · refine ⟨[], ps, ?_, by simp, ?_⟩
      · rw [← hm, heq]; simp
      · intro q hq; rw [← hm, heq]; exact hall q hq
    · subst hm
      refine ⟨p :: l₁, l₂, ?_, ?_, h₂⟩
      · simpa using congrArg (p :: ·) hdec
      · intro q hq
        rcases List.mem_cons.1 hq with rfl | hq
        · exact hlt
        · exact h₁ q hq

theorem maxByValue_mem {l : List (String × Nat)} {m : String × Nat}
    (h : maxByValue l = some m) : m ∈ l := by
  obtain ⟨l₁, l₂, hdec, -, -⟩ := maxByValue_first_max h
  rw [hdec]; simp

theorem maxByValue_le {l : List (String × Nat)} {m : String × Nat}
    (h : maxByValue l = some m) : ∀ q ∈ l, q.2 ≤ m.2 := by
  obtain ⟨l₁, l₂, hdec, h₁, h₂⟩ := maxByValue_first_max h
  intro q hq
  rw [hdec] at hq
  rcases List.mem_append.1 hq with hq | hq
  · exact le_of_lt (h₁ q hq)
  · rcases List.mem_cons.1 hq with rfl | hq
    · exact le_refl _
    · exact h₂ q hq

theorem maxByValue_ne_nil {l : List (String × Nat)} {m : String × Nat}
    (h : maxByValue l = some m) : l ≠ [] := by
  intro hl; subst hl; simp [maxByValue] at h

theorem maxByValue_of_ne_nil {l : List (String × Nat)} (h : l ≠ []) :
    ∃ m, maxByValue l = some m := by
  match l, h with
  | p :: ps, _ => exact ⟨ps.foldl maxStep p, rfl⟩

/-! ## Lemmas about `detect_keyword_emotions` -/

theorem detect_mem_label {t : List Char} {p : String × Nat}
    (h : p ∈ detect_keyword_emotions t) : p.1 ∈ emotionLabels := by
  rw [detect_keyword_emotions, List.mem_filterMap] at h
  obtain ⟨q, hq, hf⟩ := h
  have h1 : p.1 = q.1 := by
    by_cases hs : 0 < keywordScore t q.2
    · simp [hs] at hf; rw [← hf]
    · simp [hs] at hf
  have h2 : q.1 ∈ emotion_keywords.map Prod.fst := List.mem_map_of_mem _ hq
  have h3 : emotion_keywords.map Prod.fst = emotionLabels := by rfl
  rw [h1]; rw [h3] at h2; exact h2

theorem detect_pos {t : List Char} {p : String × Nat}
    (h : p ∈ detect_keyword_emotions t) : 0 < p.2 := by
  rw [detect_keyword_emotions, List.mem_filterMap] at h
  obtain ⟨q, hq, hf⟩ := h
  by_cases hs : 0 < keywordScore t q.2
  · simp [hs] at hf; rw [← hf]; exact hs
  · simp [hs] at hf

theorem filterMap_fst_sublist {γ : Type} (f : (String × γ) → Option (String × Nat))
    (hf : ∀ p q, f p = some q → q.1 = p.1) (L : List (String × γ)) :
    ((L.filterMap f).map Prod.fst).Sublist (L.map Prod.fst) := by
  induction L with
  | nil => simp
  | cons p ps ih =>
    rw [List.filterMap_cons]
    cases hfp : f p with
    | none => rw [List.map_cons]; exact ih.cons _
    | some q =>
      rw [List.map_cons, List.map_cons, hf p q hfp]
      exact ih.cons₂ _

/-- The keys of the sparse keyword mapping appear in the fixed declaration
order of `emotion_keywords` (Python dict insertion order). -/
theorem detect_keys_sublist (t : List Char) :
    ((detect_keyword_emotions t).map Prod.fst).Sublist (emotion_keywords.map Prod.fst) := by
  refine filterMap_fst_sublist _ ?_ _
  intro p q h
  simp only at h
  by_cases hs : 0 < keywordScore t p.2
  · simp [hs] at h; rw [← h]
  · simp [hs] at h

theorem maxByValue_eq_none_iff {l : List (String × Nat)} :
    maxByValue l = none ↔ l = [] := by
  cases l <;> simp [maxByValue]

/-! ## Lemmas about `_determine_primary_emotion` -/

/-- Rule (a): a highest lexical count of at least 2 decides the primary
emotion, whatever the sentiment scores are. -/
theorem determine_primary_strong {ke : List (String × Nat)} {m : String × Nat}
    (vs : VaderScores) (pol : ℚ) (hmv : maxByValue ke = some m) (h2 : 2 ≤ m.2) :
    determine_primary_emotion vs pol ke = m.1 := by
  unfold determine_primary_emotion
  rw [hmv]
  simp [h2]

/-- Neutral band with a non-empty lexical mapping: the first maximal
lexical emotion is returned (whether or not its count reaches 2). -/
theorem determine_primary_neutral_nonempty {ke : List (String × Nat)}
    {m : String × Nat} {vs : VaderScores} (pol : ℚ)
    (h1 : -(1/2) < vs.compound) (h2 : vs.compound < 1/2)
    (hmv : maxByValue ke = some m) :
    determine_primary_emotion vs pol ke = m.1 := by
  have hrest : determine_primary_rest vs pol ke = m.1 := by
    have hne : ke ≠ [] := maxByValue_ne_nil hmv
    unfold determine_primary_rest
    rw [if_neg (not_le.mpr h2), if_neg (not_le.mpr h1), hmv]
    simp [hne]
  unfold determine_primary_emotion
  rw [hmv]
  by_cases hs : 2 ≤ m.2
  · simp [hs]
  · simp [hs, hrest]

/-- Neutral band with an empty lexical mapping: the analyzer falls through
the (dead) stress/calm membership checks and returns `"calm"`. -/
theorem determine_primary_neutral_empty {ke : List (String × Nat)}
    {vs : VaderScores} (pol : ℚ)
    (h1 : -(1/2) < vs.compound) (h2 : vs.compound < 1/2) (hke : ke = []) :
    determine_primary_emotion vs pol ke = "calm" := by
  subst hke
  unfold determine_primary_emotion determine_primary_rest
  rw [if_neg (not_le.mpr h2), if_neg (not_le.mpr h1)]
  simp [maxByValue, containsKey]

/-- Whatever the inputs, the primary emotion is one of the ten labels,
provided every key of the lexical mapping is (which `detect_keyword_emotions`
guarantees). -/
theorem findFirstKey_mem {cands : List String} {ke : List (String × Nat)}
    {e : String} (h : findFirstKey cands ke = some e) : e ∈ cands :=
  List.mem_of_find?_eq_some h

theorem negDefault_mem_labels (vs : VaderScores) (pol : ℚ) :
    negDefault vs pol ∈ emotionLabels := by
  unfold negDefault
  split
  · split <;> decide
  · decide

theorem determine_primary_rest_mem_labels (vs : VaderScores) (pol : ℚ)
    (ke : List (String × Nat)) (hke : ∀ p ∈ ke, p.1 ∈ emotionLabels) :
    determine_primary_rest vs pol ke ∈ emotionLabels := by
  have hpos : positiveEmotions ⊆ emotionLabels := by decide
  have hneg : negativeEmotions ⊆ emotionLabels := by decide
  unfold determine_primary_rest
  split
  · split
    · split
      · next e heq => exact hpos (findFirstKey_mem heq)
      · decide
    · decide
  · split
    · split
      · split
        · next e heq => exact hneg (findFirstKey_mem heq)
        · exact negDefault_mem_labels vs pol
      · exact negDefault_mem_labels vs pol
    · split
      · split
        · next m hmv => exact hke m (maxByValue_mem hmv)
        · decide
      · split
        · decide
        · split <;> decide

theorem determine_primary_mem_labels (vs : VaderScores) (pol : ℚ)
    (ke : List (String × Nat)) (hke : ∀ p ∈ ke, p.1 ∈ emotionLabels) :
    determine_primary_emotion vs pol ke ∈ emotionLabels := by
  unfold determine_primary_emotion
  cases hmv : maxByValue ke with
  | some m =>
    by_cases hs : 2 ≤ m.2
    · simp only [hs, if_true]
      exact hke m (maxByValue_mem hmv)
    · simp only [hs, if_false]
      exact determine_primary_rest_mem_labels vs pol ke hke
  | none => exact determine_primary_rest_mem_labels vs pol ke hke

/-! ## Lemmas about `_calculate_confidence` -/

/-- The confidence value written out: the mean of the three factors,
floored at 0.4. -/
theorem calculate_confidence_eq (vs : VaderScores) (s : ℚ)
    (ke : List (String × Nat)) :
    calculate_confidence vs s ke =
      max ((min (|vs.compound| * 2) 1 + s +
        (if ke ≠ [] then min ((maxVal ke : ℚ) / 5) 1 else 3/10)) / 3) (2/5) := by
  by_cases hke : ke = [] <;>
    simp [calculate_confidence, hke, add_assoc]

theorem calculate_confidence_lower (vs : VaderScores) (s : ℚ)
    (ke : List (String × Nat)) : 2/5 ≤ calculate_confidence vs s ke :=
  le_max_right _ _

theorem calculate_confidence_upper (vs : VaderScores) {s : ℚ}
    (ke : List (String × Nat)) (h1 : s ≤ 1) :
    calculate_confidence vs s ke ≤ 1 := by
  rw [calculate_confidence_eq]
  refine max_le ?_ (by norm_num)
  rw [div_le_one (by norm_num)]
  have hf1 : min (|vs.compound| * 2) 1 ≤ 1 := min_le_right _ _
  have hf3 : (if ke ≠ [] then min ((maxVal ke : ℚ) / 5) 1 else 3/10) ≤ 1 := by
    split
    · exact min_le_right _ _
    · norm_num
  linarith

/-! ## Lemmas about `_get_secondary_emotions` -/

theorem mem_insertDescBy {k : String → Nat} {x a : String} {l : List String} :
    a ∈ insertDescBy k x l ↔ a = x ∨ a ∈ l := by
  induction l with
  | nil => simp [insertDescBy]
  | cons y ys ih =>
    unfold insertDescBy
    split
    · simp
    · rw [List.mem_cons, ih, List.mem_cons]
      tauto

theorem mem_sortDescBy {k : String → Nat} {a : String} {l : List String} :
    a ∈ sortDescBy k l ↔ a ∈ l := by
  induction l with
  | nil => simp [sortDescBy]
  | cons x xs ih =>
    unfold sortDescBy
    rw [mem_insertDescBy, ih, List.mem_cons]

theorem pairwise_insertDescBy {k : String → Nat} {x : String} {l : List String}
    (h : l.Pairwise (fun a b => k b ≤ k a)) :
    (insertDescBy k x l).Pairwise (fun a b => k b ≤ k a) := by
  induction l with
  | nil => simp [insertDescBy]
  | cons y ys ih =>
    unfold insertDescBy
    rcases List.pairwise_cons.1 h with ⟨hy, hys⟩
    split
    · next hxy =>
      refine List.pairwise_cons.2 ⟨?_, h⟩
      intro b hb
      rcases List.mem_cons.1 hb with rfl | hb
      · exact hxy
      · exact le_trans (hy b hb) hxy
    · next hxy =>
      refine List.pairwise_cons.2 ⟨?_, ih hys⟩
      intro b hb
      rcases mem_insertDescBy.1 hb with rfl | hb
      · exact le_of_not_le hxy
      · exact hy b hb

theorem pairwise_sortDescBy (k : String → Nat) (l : List String) :
    (sortDescBy k l).Pairwise (fun a b => k b ≤ k a) := by
  induction l with
  | nil => simp [sortDescBy]
  | cons x xs ih => exact pairwise_insertDescBy ih

theorem secondary_length (ke : List (String × Nat)) (primary : String) :
    (get_secondary_emotions ke primary).length ≤ 2 := by
  unfold get_secondary_emotions
  rw [List.length_take]
  exact min_le_left _ _

theorem secondary_mem {ke : List (String × Nat)} {primary e : String}
    (h : e ∈ get_secondary_emotions ke primary) :
    (∃ n, (e, n) ∈ ke) ∧ e ≠ primary := by
  unfold get_secondary_emotions at h
  have h1 := List.take_subset _ _ h
  rw [mem_sortDescBy] at h1
  rw [List.mem_map] at h1
  obtain ⟨p, hp, rfl⟩ := h1
  rw [List.mem_filter] at hp
  obtain ⟨hmem, hcond⟩ := hp
  rw [Bool.and_eq_true, bne_iff_ne] at hcond
  exact ⟨⟨p.2, hmem⟩, hcond.1⟩

theorem secondary_pairwise (ke : List (String × Nat)) (primary : String) :
    (get_secondary_emotions ke primary).Pairwise
      (fun a b => keCount ke b ≤ keCount ke a) := by
  unfold get_secondary_emotions
  exact List.Pairwise.sublist (List.take_sublist _ _) (pairwise_sortDescBy _ _)

theorem secondary_not_primary (ke : List (String × Nat)) (primary : String) :
    primary ∉ get_secondary_emotions ke primary := by
  intro h
  exact (secondary_mem h).2 rfl

/-! ## Unpacking a successful `analyze_emotion` -/

theorem analyze_emotion_some {V : List Char → VaderScores}
    {B : List Char → ℚ × ℚ} {t : String} {r : EmotionResult}
    (h : analyze_emotion V B t = some r) :
    r.primary_emotion =
      determine_primary_emotion (V (clean_text t.data)) ((B (clean_text t.data)).1)
        (detect_keyword_emotions (clean_text t.data)) ∧
    r.confidence =
      calculate_confidence (V (clean_text t.data)) ((B (clean_text t.data)).2)
        (detect_keyword_emotions (clean_text t.data)) ∧
    r.secondary_emotions =
      get_secondary_emotions (detect_keyword_emotions (clean_text t.data))
        (determine_primary_emotion (V (clean_text t.data))
          ((B (clean_text t.data)).1) (detect_keyword_emotions (clean_text t.data))) ∧
    r.compound = (V (clean_text t.data)).compound ∧
    r.textblob_subjectivity = (B (clean_text t.data)).2 := by
  unfold analyze_emotion at h
  by_cases hp : pyStrip t = ""
  · rw [if_pos hp] at h
    cases h
  · rw [if_neg hp, Option.some.injEq] at h
    subst h
    refine ⟨?_, ?_, ?_, ?_, ?_⟩ <;> simp only [analyze_result]

theorem analyze_emotion_none_iff (V : List Char → VaderScores)
    (B : List Char → ℚ × ℚ) (t : String) :
    analyze_emotion V B t = none ↔ pyStrip t = "" := by
  unfold analyze_emotion
  by_cases hp : pyStrip t = ""
  · rw [if_pos hp]
    simp [hp]
  · rw [if_neg hp]
    simp [hp]

/-! ## Concrete evaluations of the lexical scan -/

theorem detect_best_day :
    detect_keyword_emotions (clean_text (String.data
      "I am so happy and excited, this is the best day!")) =
      [("joy", 2), ("anticipation", 1)] := by
  decide

theorem detect_tie :
    detect_keyword_emotions (clean_text (String.data
      "happy excited sad depressed")) =
      [("joy", 2), ("sadness", 2), ("anticipation", 1)] := by
  decide

theorem detect_x :
    detect_keyword_emotions (clean_text (String.data "x")) = [] := by
  decide

theorem analyze_tie :
    analyze_emotion vader0 blob0 "happy excited sad depressed" = some resTie := by
  unfold analyze_emotion
  rw [if_neg (by decide)]
  refine congrArg some ?_
  simp only [analyze_result]
  rw [detect_tie]
  simp only [resTie, EmotionResult.mk.injEq]
  refine ⟨by decide, ?_, by decide, by decide, by decide, by decide, by decide,
    by decide, by decide⟩
  rw [calculate_confidence_eq,
    if_pos (show ([("joy", 2), ("sadness", 2), ("anticipation", 1)] :
      List (String × Nat)) ≠ [] by decide)]
  norm_num [vader0, blob0, maxVal, min_def, max_def]

theorem analyze_best_day :
    analyze_emotion vader0 blob0 "I am so happy and excited, this is the best day!" =
      some resBestDay := by
  unfold analyze_emotion
  rw [if_neg (by decide)]
  refine congrArg some ?_
  simp only [analyze_result]
  rw [detect_best_day]
  simp only [resBestDay, EmotionResult.mk.injEq]
  refine ⟨by decide, ?_, by decide, by decide, by decide, by decide, by decide,
    by decide, by decide⟩
  rw [calculate_confidence_eq,
    if_pos (show ([("joy", 2), ("anticipation", 1)] :
      List (String × Nat)) ≠ [] by decide)]
  norm_num [vader0, blob0, maxVal, min_def, max_def]

theorem analyze_x :
    analyze_emotion vader0 blob0 "x" = some resX := by
  unfold analyze_emotion
  rw [if_neg (by decide)]
  refine congrArg some ?_
  simp only [analyze_result]
  rw [detect_x]
  simp only [resX, EmotionResult.mk.injEq]
  refine ⟨?_, ?_, by decide, by decide, by decide, by decide, by decide,
    by decide, by decide⟩
  · exact determine_primary_neutral_empty _ (by norm_num [vader0]) (by norm_num [vader0]) rfl
  · rw [calculate_confidence_eq]
    norm_num [vader0, blob0, min_def, max_def]

end EmotionAnalyzer

/-! ## Lemmas about the dedup-and-limit loop -/

theorem dedupLimit_sublist {α β : Type} [DecidableEq β] (key : α → β)
    (l : List α) : ∀ (lim : Nat) (seen : List β),
    (dedupLimit key lim seen l).Sublist l := by
  induction l with
  | nil => intro lim seen; simp [dedupLimit]
  | cons m ms ih =>
    intro lim seen
    unfold dedupLimit
    by_cases hmem : key m ∈ seen
    · rw [if_pos hmem]
      exact (ih lim seen).cons m
    · rw [if_neg hmem]
      by_cases hlim : lim ≤ 1
      · rw [if_pos hlim]
        exact (List.nil_sublist ms).cons₂ m
      · rw [if_neg hlim]
        exact (ih (lim - 1) (key m :: seen)).cons₂ m

theorem dedupLimit_length {α β : Type} [DecidableEq β] (key : α → β)
    (l : List α) : ∀ (lim : Nat) (seen : List β), 1 ≤ lim →
    (dedupLimit key lim seen l).length ≤ lim := by
  induction l with
  | nil => intro lim seen _; simp [dedupLimit]
  | cons m ms ih =>
    intro lim seen hlim
    unfold dedupLimit
    by_cases hmem : key m ∈ seen
    · rw [if_pos hmem]
      exact ih lim seen hlim
    · rw [if_neg hmem]
      by_cases h1 : lim ≤ 1
      · rw [if_pos h1]
        simpa using hlim
      · rw [if_neg h1]
        have := ih (lim - 1) (key m :: seen) (by omega)
        simp only [List.length_cons]
        omega

theorem dedupLimit_nodup_aux {α β : Type} [DecidableEq β] (key : α → β)
    (l : List α) : ∀ (lim : Nat) (seen : List β),
    ((dedupLimit key lim seen l).map key).Nodup ∧
    ∀ b ∈ (dedupLimit key lim seen l).map key, b ∉ seen := by
  induction l with
  | nil => intro lim seen; simp [dedupLimit]
  | cons m ms ih =>
    intro lim seen
    unfold dedupLimit
    by_cases hmem : key m ∈ seen
    · rw [if_pos hmem]
      exact ih lim seen
    · rw [if_neg hmem]
      by_cases h1 : lim ≤ 1
      · rw [if_pos h1]
        simp [hmem]
      · rw [if_neg h1]
        obtain ⟨ihn, ihs⟩ := ih (lim - 1) (key m :: seen)
        constructor
        · rw [List.map_cons, List.nodup_cons]
          refine ⟨?_, ihn⟩
          intro hin
          exact (ihs _ hin) (List.mem_cons_self _ _)
        · intro b hb
          rw [List.map_cons, List.mem_cons] at hb
          rcases hb with rfl | hb
          · exact hmem
          · intro hbseen
            exact (ihs b hb) (List.mem_cons_of_mem _ hbseen)

theorem dedupLimit_nodup {α β : Type} [DecidableEq β] (key : α → β)
    (l : List α) (lim : Nat) :
    ((dedupLimit key lim [] l).map key).Nodup :=
  (dedupLimit_nodup_aux key l lim []).1

/-! ## Lemmas about the curated movie table -/

namespace MovieRecommender

theorem curated_movies_facts :
    ∀ q ∈ curated_movies, (q.2.map Movie.id).Nodup ∧ q.2 ≠ [] := by
  decide

theorem joyCurated_facts : (joyCurated.map Movie.id).Nodup ∧ joyCurated ≠ [] := by
  decide

theorem get_curated_nodup (e : String) (lim : Nat) :
    ((get_curated_recommendations e lim).map Movie.id).Nodup := by
  unfold get_curated_recommendations
  cases h : curated_movies.lookup (lowerStr e) with
  | none =>
    simp only [Option.getD_none]
    exact List.Nodup.sublist ((List.take_sublist _ _).map _) joyCurated_facts.1
  | some l =>
    simp only [Option.getD_some]
    obtain ⟨l₁, l₂, hdec, -⟩ := List.lookup_eq_some_iff.mp h
    have hmem : (lowerStr e, l) ∈ curated_movies := by
      rw [hdec]; simp
    exact List.Nodup.sublist ((List.take_sublist _ _).map _)
      (curated_movies_facts _ hmem).1

theorem get_curated_length (e : String) (lim : Nat) :
    (get_curated_recommendations e lim).length ≤ lim := by
  unfold get_curated_recommendations
  rw [List.length_take]
  exact min_le_left _ _

theorem get_curated_ne_nil (e : String) {lim : Nat} (hlim : 1 ≤ lim) :
    get_curated_recommendations e lim ≠ [] := by
  unfold get_curated_recommendations
  intro hnil
  rw [List.take_eq_nil_iff] at hnil
  rcases hnil with h | h
  · omega
  · cases hl : curated_movies.lookup (lowerStr e) with
    | none =>
      rw [hl] at h
      simp only [Option.getD_none] at h
      exact joyCurated_facts.2 h
    | some l =>
      rw [hl] at h
      simp only [Option.getD_some] at h
      obtain ⟨l₁, l₂, hdec, -⟩ := List.lookup_eq_some_iff.mp hl
      have hmem : (lowerStr e, l) ∈ curated_movies := by
        rw [hdec]; simp
      exact (curated_movies_facts _ hmem).2 h

theorem movie_recommendations_props (fg : Int → Nat → List Movie) (e : String)
    {lim : Nat} (hlim : 1 ≤ lim) :
    ((get_recommendations true fg e lim).map Movie.id).Nodup ∧
    (get_recommendations true fg e lim).length ≤ lim ∧
    (get_recommendations true fg e lim).Sublist
      (tierCollect (fun g => fg g 3) lim
        (((emotion_genre_map.lookup (lowerStr e)).getD [35]).take 2) []) := by
  unfold get_recommendations
  rw [if_neg (by decide)]
  exact ⟨dedupLimit_nodup _ _ _, dedupLimit_length _ _ _ _ hlim,
    dedupLimit_sublist _ _ _ _⟩

theorem movie_recommendations_no_key (fg : Int → Nat → List Movie) (e : String)
    (lim : Nat) :
    get_recommendations false fg e lim = get_curated_recommendations e lim := by
  unfold get_recommendations
  rw [if_pos (by decide)]

theorem search_movies_by_keyword_length (hasKey : Bool)
    (fs : String → List Movie) (kw : String) (lim : Nat) :
    (search_movies_by_keyword hasKey fs kw lim).length ≤ lim := by
  unfold search_movies_by_keyword
  cases hasKey with
  | false =>
    rw [if_pos (by decide)]
    simp
  | true =>
    rw [if_neg (by decide)]
    refine le_trans (List.length_filter_le _ _) ?_
    rw [List.length_take]
    exact min_le_left _ _

end MovieRecommender

namespace YouTubeRecommender

theorem yt_recommendations_props (sv : String → Nat → List Video) (e : String)
    {lim : Nat} (hlim : 1 ≤ lim) :
    ((get_recommendations true sv e lim).map Video.id).Nodup ∧
    (get_recommendations true sv e lim).length ≤ lim ∧
    (get_recommendations true sv e lim).Sublist
      (tierCollect (fun q => sv q 3) lim
        (((emotion_queries.lookup (lowerStr e)).getD ["relaxing music"]).take 3) []) := by
  unfold get_recommendations
  rw [if_neg (by decide)]
  exact ⟨dedupLimit_nodup _ _ _, dedupLimit_length _ _ _ _ hlim,
    dedupLimit_sublist _ _ _ _⟩

theorem yt_recommendations_no_key (sv : String → Nat → List Video) (e : String)
    (lim : Nat) :
    get_recommendations false sv e lim = [] := by
  unfold get_recommendations
  rw [if_pos (by decide)]

end YouTubeRecommender

/-! ## Lemmas about the tier cascade of the engine -/

namespace RecommendationEngine

theorem tierFetch_error {α : Type} (fetch : String → Nat → Except Unit (List α))
    (p : String) (secs : List String) (a b : Nat)
    (h : ∀ e n, fetch e n = Except.error ()) :
    tierFetch fetch p secs a b = [] := by
  unfold tierFetch
  rw [h p a]

theorem tierFetch_ok {α : Type} (fetch : String → Nat → Except Unit (List α))
    (p : String) (secs : List String) (a b : Nat) {items : List α}
    (h : fetch p a = Except.ok items) (hne : items ≠ []) :
    tierFetch fetch p secs a b = items := by
  unfold tierFetch
  rw [h]
  have hie : items.isEmpty = false := by
    simpa [List.isEmpty_iff] using hne
  simp [hie]

end RecommendationEngine

/-! ## The claims -/

/-- Claim C1: the engine function `get_recommendations` returns a bundle iff, after
the primary tier, the secondary fallback and the global fallback, at least
one of the two content lists is non-empty; when every tier is empty for both
content types it returns `none`. -/
theorem claim_C1 (movieRec : String → Nat → Except Unit (List Movie))
    (ytRec : String → Nat → Except Unit (List Video))
    (movieSearch : String → Nat → Except Unit (List Movie))
    (ytTrending : Nat → Except Unit (List Video))
    (p : String) (secs : List String) :
    (RecommendationEngine.get_recommendations movieRec ytRec movieSearch
        ytTrending p secs = none ↔
      (RecommendationEngine.tierFetch movieRec p secs 6 3 = [] ∧
       RecommendationEngine.tierFetch ytRec p secs 8 4 = [] ∧
       (RecommendationEngine.get_fallback_recommendations movieSearch ytTrending p).1 = [] ∧
       (RecommendationEngine.get_fallback_recommendations movieSearch ytTrending p).2 = [])) ∧
    (∀ b, RecommendationEngine.get_recommendations movieRec ytRec movieSearch
        ytTrending p secs = some b → b.movies ≠ [] ∨ b.videos ≠ []) := by
  unfold RecommendationEngine.get_recommendations
  by_cases hm : RecommendationEngine.tierFetch movieRec p secs 6 3 = [] <;>
    by_cases hv : RecommendationEngine.tierFetch ytRec p secs 8 4 = [] <;>
      by_cases hf1 : (RecommendationEngine.get_fallback_recommendations movieSearch ytTrending p).1 = [] <;>
        by_cases hf2 : (RecommendationEngine.get_fallback_recommendations movieSearch ytTrending p).2 = [] <;>
          simp_all [List.isEmpty_iff]

/-- Claim C2: `analyze_emotion` returns Empty exactly for blank input (the
model is total, so the caught-exception path cannot fire), and on every
other input it returns a complete `EmotionResult`. -/
theorem claim_C2 (V : List Char → EmotionAnalyzer.VaderScores)
    (B : List Char → ℚ × ℚ) (t : String) :
    (EmotionAnalyzer.analyze_emotion V B t = none ↔ pyStrip t = "") ∧
    (pyStrip t ≠ "" → ∃ r, EmotionAnalyzer.analyze_emotion V B t = some r) := by
  refine ⟨EmotionAnalyzer.analyze_emotion_none_iff V B t, ?_⟩
  intro hne
  cases h : EmotionAnalyzer.analyze_emotion V B t with
  | none => exact absurd ((EmotionAnalyzer.analyze_emotion_none_iff V B t).mp h) hne
  | some r => exact ⟨r, rfl⟩

theorem claim_C2_witness :
    EmotionalSage.EmotionAnalyzer.analyze_emotion vader0 blob0 "" = none :=
  (claim_C2 vader0 blob0 "").1.mpr rfl

/-- Claim C9: provider failures are isolated per content type: a movie
provider that throws on every call yields `movies = []` without aborting the
video fetch, and symmetrically; the resulting bundle is still valid when the
other side returned items. -/
theorem claim_C9 (movieRec : String → Nat → Except Unit (List Movie))
    (ytRec : String → Nat → Except Unit (List Video))
    (movieSearch : String → Nat → Except Unit (List Movie))
    (ytTrending : Nat → Except Unit (List Video))
    (p : String) (secs : List String) :
    ((∀ e n, movieRec e n = Except.error ()) →
      ∀ vs, ytRec p 8 = Except.ok vs → vs ≠ [] →
      RecommendationEngine.get_recommendations movieRec ytRec movieSearch
        ytTrending p secs = some ⟨[], vs⟩) ∧
    ((∀ e n, ytRec e n = Except.error ()) →
      ∀ ms, movieRec p 6 = Except.ok ms → ms ≠ [] →
      RecommendationEngine.get_recommendations movieRec ytRec movieSearch
        ytTrending p secs = some ⟨ms, []⟩) := by
  constructor
  · intro herr vs hok hne
    have hM : RecommendationEngine.tierFetch movieRec p secs 6 3 = [] :=
      RecommendationEngine.tierFetch_error _ _ _ _ _ herr
    have hV : RecommendationEngine.tierFetch ytRec p secs 8 4 = vs :=
      RecommendationEngine.tierFetch_ok _ _ _ _ _ hok hne
    unfold RecommendationEngine.get_recommendations
    rw [hM, hV]
    have hie : vs.isEmpty = false := by simpa [List.isEmpty_iff] using hne
    simp [hie]
  · intro herr ms hok hne
    have hM : RecommendationEngine.tierFetch movieRec p secs 6 3 = ms :=
      RecommendationEngine.tierFetch_ok _ _ _ _ _ hok hne
    have hV : RecommendationEngine.tierFetch ytRec p secs 8 4 = [] :=
      RecommendationEngine.tierFetch_error _ _ _ _ _ herr
    unfold RecommendationEngine.get_recommendations
    rw [hM, hV]
    have hie : ms.isEmpty = false := by simpa [List.isEmpty_iff] using hne
    simp [hie]

theorem claim_C9_witness :
    RecommendationEngine.get_recommendations (fun _ _ => Except.error ())
      (fun _ _ => Except.ok vids3) (fun _ _ => Except.error ())
      (fun _ => Except.error ()) "joy" [] = some ⟨[], vids3⟩ :=
  (claim_C9 _ _ _ _ "joy" []).1 (fun _ _ => rfl) vids3 rfl (by simp [vids3])

theorem claim_C1_witness :
    RecommendationEngine.get_recommendations (fun _ _ => Except.error ())
      (fun _ _ => Except.error ()) (fun _ _ => Except.error ())
      (fun _ => Except.error ()) "joy" [] = none :=
  (claim_C1 _ _ _ _ "joy" []).1.mpr ⟨rfl, rfl, rfl, rfl⟩

open EmotionAnalyzer in
/-- Claim C3: whenever the highest-scoring lexical emotion has count at
least 2 it becomes the primary emotion, independently of all sentiment
inputs; in particular the strong-joy scenario text yields `"joy"` with
confidence at least 0.4. -/
theorem claim_C3 :
    (∀ (V : List Char → VaderScores) (B : List Char → ℚ × ℚ) (t : String)
      (r : EmotionResult), analyze_emotion V B t = some r →
      ∀ e n, maxByValue (detect_keyword_emotions (clean_text t.data)) = some (e, n) →
      2 ≤ n → r.primary_emotion = e) ∧
    (∀ (V : List Char → VaderScores) (B : List Char → ℚ × ℚ)
      (r : EmotionResult),
      analyze_emotion V B "I am so happy and excited, this is the best day!" = some r →
      r.primary_emotion = "joy" ∧ 2/5 ≤ r.confidence) := by
  constructor
  · intro V B t r h e n hmv h2
    obtain ⟨hp, -, -, -, -⟩ := analyze_emotion_some h
    rw [hp]
    exact determine_primary_strong _ _ hmv h2
  · intro V B r h
    obtain ⟨hp, hc, -, -, -⟩ := analyze_emotion_some h
    have hmv : maxByValue (detect_keyword_emotions (clean_text (String.data
        "I am so happy and excited, this is the best day!"))) = some ("joy", 2) := by
      rw [detect_best_day]
      decide
    constructor
    · rw [hp]
      exact determine_primary_strong _ _ hmv (by decide)
    · rw [hc]
      exact calculate_confidence_lower _ _ _

theorem claim_C3_witness :
    resBestDay.primary_emotion = "joy" ∧ 2/5 ≤ resBestDay.confidence :=
  claim_C3.2 vader0 blob0 resBestDay EmotionAnalyzer.analyze_best_day

open EmotionAnalyzer in
/-- Claim C4: the confidence is exactly the mean of the three factors
floored at 0.4, hence always at least 0.4 (never 0), and at most 1 whenever
the subjectivity is at most 1. -/
theorem claim_C4 (V : List Char → VaderScores) (B : List Char → ℚ × ℚ)
    (t : String) (r : EmotionResult)
    (h : analyze_emotion V B t = some r) :
    r.confidence =
      max ((min (|r.compound| * 2) 1 + r.textblob_subjectivity +
        (if detect_keyword_emotions (clean_text t.data) ≠ [] then
          min ((maxVal (detect_keyword_emotions (clean_text t.data)) : ℚ) / 5) 1
        else 3/10)) / 3) (2/5) ∧
    2/5 ≤ r.confidence ∧ 0 < r.confidence ∧
    (0 ≤ r.textblob_subjectivity → r.textblob_subjectivity ≤ 1 →
      r.confidence ≤ 1) := by
  obtain ⟨-, hc, -, hcomp, hsub⟩ := analyze_emotion_some h
  refine ⟨?_, ?_, ?_, ?_⟩
  · rw [hc, hcomp, hsub]
    exact calculate_confidence_eq _ _ _
  · rw [hc]
    exact calculate_confidence_lower _ _ _
  · rw [hc]
    exact lt_of_lt_of_le (by norm_num) (calculate_confidence_lower _ _ _)
  · intro _ h1
    rw [hc]
    rw [hsub] at h1
    exact calculate_confidence_upper _ _ h1

theorem claim_C4_witness :
    2/5 ≤ resX.confidence ∧ 0 < resX.confidence :=
  ⟨(claim_C4 vader0 blob0 "x" resX EmotionAnalyzer.analyze_x).2.1,
   (claim_C4 vader0 blob0 "x" resX EmotionAnalyzer.analyze_x).2.2.1⟩

open EmotionAnalyzer in
/-- Claim C5: every successful analysis has a primary emotion among the ten
labels, secondary emotions that are lexically detected, distinct from the
primary, at most two, and sorted by descending lexical count. -/
theorem claim_C5 (V : List Char → VaderScores) (B : List Char → ℚ × ℚ)
    (t : String) (r : EmotionResult)
    (h : analyze_emotion V B t = some r) :
    r.primary_emotion ∈ emotionLabels ∧
    r.primary_emotion ∉ r.secondary_emotions ∧
    r.secondary_emotions.length ≤ 2 ∧
    (∀ e ∈ r.secondary_emotions,
      (∃ n, (e, n) ∈ detect_keyword_emotions (clean_text t.data)) ∧
      e ≠ r.primary_emotion) ∧
    r.secondary_emotions.Pairwise (fun a b =>
      keCount (detect_keyword_emotions (clean_text t.data)) b ≤
      keCount (detect_keyword_emotions (clean_text t.data)) a) := by
  obtain ⟨hp, -, hs, -, -⟩ := analyze_emotion_some h
  refine ⟨?_, ?_, ?_, ?_, ?_⟩
  · rw [hp]
    exact determine_primary_mem_labels _ _ _ (fun p hp' => detect_mem_label hp')
  · rw [hp, hs]
    exact secondary_not_primary _ _
  · rw [hs]
    exact secondary_length _ _
  · intro e he
    rw [hs] at he
    obtain ⟨⟨n, hn⟩, hne⟩ := secondary_mem he
    rw [hp]
    exact ⟨⟨n, hn⟩, hne⟩
  · rw [hs]
    exact secondary_pairwise _ _

theorem claim_C5_witness :
    resTie.primary_emotion ∈ EmotionAnalyzer.emotionLabels ∧
    resTie.secondary_emotions.length ≤ 2 :=
  ⟨(claim_C5 vader0 blob0 "happy excited sad depressed" resTie
      EmotionAnalyzer.analyze_tie).1,
   (claim_C5 vader0 blob0 "happy excited sad depressed" resTie
      EmotionAnalyzer.analyze_tie).2.2.1⟩

open EmotionAnalyzer in
/-- Claim C7: in the neutral band the primary emotion is the highest-scoring
lexical emotion when the mapping is non-empty and `"calm"` when it is empty,
so the trailing stress/calm membership checks are unreachable and an empty
mapping can never produce `"stress"`; the scenario text has an empty
mapping. -/
theorem claim_C7 :
    (∀ (vs : VaderScores) (pol : ℚ) (ke : List (String × Nat)),
      -(1/2) < vs.compound → vs.compound < 1/2 →
      (ke = [] → determine_primary_emotion vs pol ke = "calm") ∧
      (∀ e n, maxByValue ke = some (e, n) →
        determine_primary_emotion vs pol ke = e)) ∧
    detect_keyword_emotions (clean_text (String.data
      "I feel nothing in particular today")) = [] := by
  refine ⟨?_, by decide⟩
  intro vs pol ke h1 h2
  constructor
  · intro hke
    exact determine_primary_neutral_empty pol h1 h2 hke
  · intro e n hmv
    exact determine_primary_neutral_nonempty pol h1 h2 hmv

theorem claim_C7_witness :
    EmotionAnalyzer.determine_primary_emotion ⟨0, 0, 0, 0⟩ 0 [] = "calm" :=
  (claim_C7.1 ⟨0, 0, 0, 0⟩ 0 [] (by norm_num) (by norm_num)).1 rfl

open EmotionAnalyzer in
/-- Claim C10: ties on the maximal lexical count are broken toward the
emotion earliest in the keyword-dictionary declaration order: the detected
mapping lists emotions in declaration order, `maxByValue` returns its first
maximal element, both decision rules use that element, and the concrete
joy/sadness tie resolves to `"joy"`. -/
theorem claim_C10 :
    (∀ (t : List Char) (e : String) (n : Nat),
      maxByValue (detect_keyword_emotions t) = some (e, n) →
      ∃ l₁ l₂, detect_keyword_emotions t = l₁ ++ (e, n) :: l₂ ∧
        (∀ q ∈ l₁, q.2 < n) ∧ (∀ q ∈ l₂, q.2 ≤ n)) ∧
    (∀ t : List Char, ((detect_keyword_emotions t).map Prod.fst).Sublist
      (emotion_keywords.map Prod.fst)) ∧
    (∀ (vs : VaderScores) (pol : ℚ) (ke : List (String × Nat)) (e : String)
      (n : Nat), maxByValue ke = some (e, n) →
      (2 ≤ n → determine_primary_emotion vs pol ke = e) ∧
      (-(1/2) < vs.compound → vs.compound < 1/2 →
        determine_primary_emotion vs pol ke = e)) ∧
    (∀ (V : List Char → VaderScores) (B : List Char → ℚ × ℚ)
      (r : EmotionResult),
      analyze_emotion V B "happy excited sad depressed" = some r →
      r.primary_emotion = "joy") ∧
    detect_keyword_emotions (clean_text (String.data
      "happy excited sad depressed")) =
      [("joy", 2), ("sadness", 2), ("anticipation", 1)] := by
  refine ⟨?_, ?_, ?_, ?_, detect_tie⟩
  · intro t e n hmv
    exact maxByValue_first_max hmv
  · exact detect_keys_sublist
  · intro vs pol ke e n hmv
    exact ⟨fun h2 => determine_primary_strong _ _ hmv h2,
      fun h1 h2 => determine_primary_neutral_nonempty _ h1 h2 hmv⟩
  · intro V B r h
    obtain ⟨hp, -, -, -, -⟩ := analyze_emotion_some h
    rw [hp]
    have hmv : maxByValue (detect_keyword_emotions (clean_text (String.data
        "happy excited sad depressed"))) = some ("joy", 2) := by
      rw [detect_tie]
      decide
    exact determine_primary_strong _ _ hmv (by decide)

theorem claim_C10_witness :
    resTie.primary_emotion = "joy" :=
  claim_C10.2.2.2.1 vader0 blob0 resTie EmotionAnalyzer.analyze_tie

/-- Claim C6 as stated is false: the global keyword-search fallback path
places a provider response with a duplicated id into the bundle unchanged
(no dedup is applied there), here id 1 twice. -/
theorem claim_C6_counterexample :
    RecommendationEngine.get_recommendations
      (fun _ _ => Except.ok []) (fun _ _ => Except.ok [])
      (fun kw lim => Except.ok
        (MovieRecommender.search_movies_by_keyword true dupSearch kw lim))
      (fun _ => Except.ok []) "joy" [] =
      some ⟨[⟨1, 8⟩, ⟨1, 8⟩], []⟩ ∧
    ¬ (([(⟨1, 8⟩ : Movie), ⟨1, 8⟩].map Movie.id).Nodup) := by
  exact ⟨rfl, by decide⟩

/-- Claim C6, amended: the dedup/limit law holds for the tiered
`get_recommendations` of both providers (each id at most once, first-seen
order preserved as a sublist of the fetched items, length at most the
limit when the limit is positive), and the keyword-search fallback still
truncates to its limit, but the fallback paths do not deduplicate. -/
theorem claim_C6_amended (fg : Int → Nat → List Movie)
    (sv : String → Nat → List Video) (fs : String → List Movie)
    (hasKey : Bool) (e kw : String) {lim : Nat} (hlim : 1 ≤ lim) :
    (((MovieRecommender.get_recommendations hasKey fg e lim).map Movie.id).Nodup ∧
     (MovieRecommender.get_recommendations hasKey fg e lim).length ≤ lim) ∧
    (((YouTubeRecommender.get_recommendations hasKey sv e lim).map Video.id).Nodup ∧
     (YouTubeRecommender.get_recommendations hasKey sv e lim).length ≤ lim) ∧
    ((MovieRecommender.get_recommendations true fg e lim).Sublist
      (tierCollect (fun g => fg g 3) lim
        (((MovieRecommender.emotion_genre_map.lookup (lowerStr e)).getD [35]).take 2) []) ∧
     (YouTubeRecommender.get_recommendations true sv e lim).Sublist
      (tierCollect (fun q => sv q 3) lim
        (((YouTubeRecommender.emotion_queries.lookup (lowerStr e)).getD
          ["relaxing music"]).take 3) [])) ∧
    (MovieRecommender.search_movies_by_keyword hasKey fs kw lim).length ≤ lim := by
  obtain ⟨hmn, hml, hms⟩ := MovieRecommender.movie_recommendations_props fg e hlim
  obtain ⟨hyn, hyl, hys⟩ := YouTubeRecommender.yt_recommendations_props sv e hlim
  cases hasKey with
  | false =>
    rw [MovieRecommender.movie_recommendations_no_key,
      YouTubeRecommender.yt_recommendations_no_key]
    exact ⟨⟨MovieRecommender.get_curated_nodup e lim,
        MovieRecommender.get_curated_length e lim⟩,
      ⟨by simp, by simp⟩, ⟨hms, hys⟩,
      MovieRecommender.search_movies_by_keyword_length _ _ _ _⟩
  | true =>
    exact ⟨⟨hmn, hml⟩, ⟨hyn, hyl⟩, ⟨hms, hys⟩,
      MovieRecommender.search_movies_by_keyword_length _ _ _ _⟩

theorem claim_C6_witness :
    ((MovieRecommender.get_recommendations true (fun _ _ => []) "joy" 6).map
      Movie.id).Nodup :=
  (claim_C6_amended (fun _ _ => []) (fun _ _ => []) (fun _ => []) true "joy"
    "comedy" (by norm_num)).1.1

/-- Claim C8 as stated is false for the movie provider: with no API key,
`MovieRecommender.get_recommendations` returns the non-empty curated joy
list, not the empty list. -/
theorem claim_C8_counterexample :
    MovieRecommender.get_recommendations false (fun _ _ => []) "joy" 6 =
      MovieRecommender.joyCurated ∧
    MovieRecommender.joyCurated ≠ [] := by
  exact ⟨rfl, by simp [MovieRecommender.joyCurated]⟩

/-- Claim C8, amended: with no API key the YouTube recommender degrades to
the empty list for every emotion and limit, while the movie recommender
degrades to the curated static list for the emotion (truncated to the
limit), which is non-empty whenever the limit is positive. -/
theorem claim_C8_amended (fg : Int → Nat → List Movie)
    (sv : String → Nat → List Video) (e : String) (lim : Nat) :
    YouTubeRecommender.get_recommendations false sv e lim = [] ∧
    MovieRecommender.get_recommendations false fg e lim =
      MovieRecommender.get_curated_recommendations e lim ∧
    (1 ≤ lim → MovieRecommender.get_recommendations false fg e lim ≠ []) := by
  refine ⟨YouTubeRecommender.yt_recommendations_no_key sv e lim,
    MovieRecommender.movie_recommendations_no_key fg e lim, ?_⟩
  intro hlim
  rw [MovieRecommender.movie_recommendations_no_key]
  exact MovieRecommender.get_curated_ne_nil e hlim

theorem claim_C8_witness :
    MovieRecommender.get_recommendations false (fun _ _ => []) "sadness" 3 ≠ [] :=
  (claim_C8_amended (fun _ _ => []) (fun _ _ => []) "sadness" 3).2.2 (by norm_num)

end EmotionalSage
